import Mathlib

/-!
Verification of the box-model core of WeasyPrint
(`weasy/formatting_structure/boxes.py`).

The Python classes are shallowly embedded as Lean structures:
nullable (`None` / unset-slot) numeric fields become `Option Int`;
fallible operations (Python exceptions) return `Except`; the mutable
box tree becomes an inductive tree with explicit state passing.
-/

namespace Weasy

/-- The four sides used by the per-side geometry fields, mirroring the
`['top', 'right', 'bottom', 'left']` template loop in `Box.__slots__`. -/
inductive Side where
  | top
  | right
  | bottom
  | left
  deriving DecidableEq, Repr

/-- The concrete box classes of `boxes.py` (abstract classes are capability
mix-ins and are represented by the capability queries below). -/
inductive BoxKind where
  | pageBox
  | blockBox
  | anonymousBlockBox
  | lineBox
  | inlineBox
  | textBox
  | inlineBlockBox
  | blockLevelReplacedBox
  | inlineLevelReplacedBox
  | imageMarkerBox
  deriving DecidableEq, Repr

/-- A box's own style bag.  `position` / `display` / `float` hold the result
of `get_single_keyword` on the corresponding property (`none` when the value
is not a single keyword).  The twelve `margin-* / padding-* / border-*-width`
entries model the dictionary entries that `reset_spacing` nulls out. -/
structure Style where
  position : Option String := none
  display : Option String := none
  float : Option String := none
  margin_top : Option Int := none
  margin_right : Option Int := none
  margin_bottom : Option Int := none
  margin_left : Option Int := none
  padding_top : Option Int := none
  padding_right : Option Int := none
  padding_bottom : Option Int := none
  padding_left : Option Int := none
  border_top_width : Option Int := none
  border_right_width : Option Int := none
  border_bottom_width : Option Int := none
  border_left_width : Option Int := none
  deriving DecidableEq, Repr

/-- The value slots of `Box.__slots__` (plus the `PageBox` slots
`outer_width` / `outer_height` and the payload slots `text` / `baseline`).
Geometry fields are `Option Int`: `none` models a still-unresolved value
(Python `None` or an unset slot). -/
structure BoxFields where
  document : Nat := 0
  element : Option Nat := none
  width : Option Int := none
  height : Option Int := none
  position_x : Int := 0
  position_y : Int := 0
  text_indent : Option Int := none
  min_width : Option Int := none
  max_width : Option Int := none
  min_height : Option Int := none
  max_height : Option Int := none
  background_drawn : Bool := false
  baseline : Option Int := none
  text : Option String := none
  outer_width : Option Int := none
  outer_height : Option Int := none
  padding_top : Option Int := none
  padding_right : Option Int := none
  padding_bottom : Option Int := none
  padding_left : Option Int := none
  border_top_width : Option Int := none
  border_right_width : Option Int := none
  border_bottom_width : Option Int := none
  border_left_width : Option Int := none
  margin_top : Option Int := none
  margin_right : Option Int := none
  margin_bottom : Option Int := none
  margin_left : Option Int := none
  deriving DecidableEq, Repr

/-- A box: its value slots, its concrete class, and its own style bag. -/
structure Box extends BoxFields where
  kind : BoxKind
  style : Style := {}
  deriving DecidableEq, Repr

/-- Failure of a geometry query.  In the source an unresolved (`None` or
unset) operand makes the arithmetic raise; the spec names this failure
`IncompleteGeometry`.  The query never silently defaults to zero. -/
inductive GeomErr where
  | incompleteGeometry
  deriving DecidableEq, Repr

/-- `Box.padding_width`: `self.width + self.padding_left + self.padding_right`. -/
def Box.padding_width (b : Box) : Except GeomErr Int :=
  match b.width, b.padding_left, b.padding_right with
  | some w, some pl, some pr => .ok (w + pl + pr)
  | _, _, _ => .error .incompleteGeometry

/-- `Box.padding_height`: `self.height + self.padding_top + self.padding_bottom`. -/
def Box.padding_height (b : Box) : Except GeomErr Int :=
  match b.height, b.padding_top, b.padding_bottom with
  | some h, some pt, some pb => .ok (h + pt + pb)
  | _, _, _ => .error .incompleteGeometry

/-- `Box.border_width`: `self.padding_width() + self.border_left_width +
self.border_right_width`. -/
def Box.border_width (b : Box) : Except GeomErr Int :=
  match b.padding_width, b.border_left_width, b.border_right_width with
  | .ok pw, some bl, some br => .ok (pw + bl + br)
  | _, _, _ => .error .incompleteGeometry

/-- `Box.border_height`: `self.padding_height() + self.border_top_width +
self.border_bottom_width`. -/
def Box.border_height (b : Box) : Except GeomErr Int :=
  match b.padding_height, b.border_top_width, b.border_bottom_width with
  | .ok ph, some bt, some bb => .ok (ph + bt + bb)
  | _, _, _ => .error .incompleteGeometry

/-- `Box.margin_width`: `self.border_width() + self.margin_left +
self.margin_right`. -/
def Box.margin_width (b : Box) : Except GeomErr Int :=
  match b.border_width, b.margin_left, b.margin_right with
  | .ok bw, some ml, some mr => .ok (bw + ml + mr)
  | _, _, _ => .error .incompleteGeometry

/-- `Box.margin_height`: `self.border_height() + self.margin_top +
self.margin_bottom`. -/
def Box.margin_height (b : Box) : Except GeomErr Int :=
  match b.border_height, b.margin_top, b.margin_bottom with
  | .ok bh, some mt, some mb => .ok (bh + mt + mb)
  | _, _, _ => .error .incompleteGeometry

/-- `Box.horizontal_surroundings`: sum of the six horizontal edge values. -/
def Box.horizontal_surroundings (b : Box) : Except GeomErr Int :=
  match b.margin_left, b.margin_right, b.padding_left, b.padding_right,
      b.border_left_width, b.border_right_width with
  | some ml, some mr, some pl, some pr, some bl, some br =>
      .ok (ml + mr + pl + pr + bl + br)
  | _, _, _, _, _, _ => .error .incompleteGeometry

/-- `Box.vertical_surroundings`: sum of the six vertical edge values. -/
def Box.vertical_surroundings (b : Box) : Except GeomErr Int :=
  match b.margin_top, b.margin_bottom, b.padding_top, b.padding_bottom,
      b.border_top_width, b.border_bottom_width with
  | some mt, some mb, some pt, some pb, some bt, some bb =>
      .ok (mt + mb + pt + pb + bt + bb)
  | _, _, _, _, _, _ => .error .incompleteGeometry

/-- `Box.content_box_x`: `self.position_x + self.margin_left +
self.padding_left + self.border_left_width`. -/
def Box.content_box_x (b : Box) : Except GeomErr Int :=
  match b.margin_left, b.padding_left, b.border_left_width with
  | some ml, some pl, some bl => .ok (b.position_x + ml + pl + bl)
  | _, _, _ => .error .incompleteGeometry

/-- `Box.content_box_y`: `self.position_y + self.margin_top +
self.padding_top + self.border_top_width`. -/
def Box.content_box_y (b : Box) : Except GeomErr Int :=
  match b.margin_top, b.padding_top, b.border_top_width with
  | some mt, some pt, some bt => .ok (b.position_y + mt + pt + bt)
  | _, _, _ => .error .incompleteGeometry

/-- `Box.padding_box_x`: `self.position_x + self.margin_left +
self.border_left_width`. -/
def Box.padding_box_x (b : Box) : Except GeomErr Int :=
  match b.margin_left, b.border_left_width with
  | some ml, some bl => .ok (b.position_x + ml + bl)
  | _, _ => .error .incompleteGeometry

/-- `Box.padding_box_y`: `self.position_y + self.margin_top +
self.border_top_width`. -/
def Box.padding_box_y (b : Box) : Except GeomErr Int :=
  match b.margin_top, b.border_top_width with
  | some mt, some bt => .ok (b.position_y + mt + bt)
  | _, _ => .error .incompleteGeometry

/-- `Box.border_box_x`: `self.position_x + self.margin_left`. -/
def Box.border_box_x (b : Box) : Except GeomErr Int :=
  match b.margin_left with
  | some ml => .ok (b.position_x + ml)
  | none => .error .incompleteGeometry

/-- `Box.border_box_y`: `self.position_y + self.margin_top`. -/
def Box.border_box_y (b : Box) : Except GeomErr Int :=
  match b.margin_top with
  | some mt => .ok (b.position_y + mt)
  | none => .error .incompleteGeometry

/-- `Box.reset_spacing(side)`: set the side's box fields to 0 and null out
the three corresponding style entries.  One match arm per side mirrors the
`'%s' % side` attribute templating of the source. -/
def Box.reset_spacing (b : Box) : Side → Box
  | .top =>
      { b with
        margin_top := some 0, padding_top := some 0, border_top_width := some 0,
        style := { b.style with
          margin_top := none, padding_top := none, border_top_width := none } }
  | .right =>
      { b with
        margin_right := some 0, padding_right := some 0,
        border_right_width := some 0,
        style := { b.style with
          margin_right := none, padding_right := none,
          border_right_width := none } }
  | .bottom =>
      { b with
        margin_bottom := some 0, padding_bottom := some 0,
        border_bottom_width := some 0,
        style := { b.style with
          margin_bottom := none, padding_bottom := none,
          border_bottom_width := none } }
  | .left =>
      { b with
        margin_left := some 0, padding_left := some 0,
        border_left_width := some 0,
        style := { b.style with
          margin_left := none, padding_left := none,
          border_left_width := none } }

/-- Side-indexed read of the box's margin fields. -/
def Box.marginAt (b : Box) : Side → Option Int
  | .top => b.margin_top
  | .right => b.margin_right
  | .bottom => b.margin_bottom
  | .left => b.margin_left

/-- Side-indexed read of the box's padding fields. -/
def Box.paddingAt (b : Box) : Side → Option Int
  | .top => b.padding_top
  | .right => b.padding_right
  | .bottom => b.padding_bottom
  | .left => b.padding_left

/-- Side-indexed read of the box's border-width fields. -/
def Box.borderWidthAt (b : Box) : Side → Option Int
  | .top => b.border_top_width
  | .right => b.border_right_width
  | .bottom => b.border_bottom_width
  | .left => b.border_left_width

/-- Side-indexed read of the style's margin entries. -/
def Style.marginAt (s : Style) : Side → Option Int
  | .top => s.margin_top
  | .right => s.margin_right
  | .bottom => s.margin_bottom
  | .left => s.margin_left

/-- Side-indexed read of the style's padding entries. -/
def Style.paddingAt (s : Style) : Side → Option Int
  | .top => s.padding_top
  | .right => s.padding_right
  | .bottom => s.padding_bottom
  | .left => s.padding_left

/-- Side-indexed read of the style's border-width entries. -/
def Style.borderWidthAt (s : Style) : Side → Option Int
  | .top => s.border_top_width
  | .right => s.border_right_width
  | .bottom => s.border_bottom_width
  | .left => s.border_left_width

/-- `Box.is_floated`: `get_single_keyword(self.style.float) != 'none'`. -/
def Box.is_floated (b : Box) : Bool :=
  !(b.style.float == some "none")

/-- `Box.is_absolutely_positioned`:
`get_single_keyword(self.style.position) in ('absolute', 'fixed')`. -/
def Box.is_absolutely_positioned (b : Box) : Bool :=
  b.style.position == some "absolute" || b.style.position == some "fixed"

/-- `Box.is_in_normal_flow`:
`not (self.is_floated() or self.is_absolutely_positioned())`. -/
def Box.is_in_normal_flow (b : Box) : Bool :=
  !(b.is_floated || b.is_absolutely_positioned)

/-- Failure of `containing_block_size`.  Both `assert False` statements of
the source raise a fatal `AssertionError`, which the spec names
`ContainingBlockNotFound`; the constructor keeps the assertion message.
`attributeError` models the `AttributeError` raised when the `static` /
`relative` branch reads `self.parent.width` on a parentless box. -/
inductive CBErr where
  | containingBlockNotFound (msg : String)
  | attributeError
  deriving DecidableEq, Repr

/-- The test `get_single_keyword(ancestor.style.position) in
('absolute', 'relative', 'fixed')` of the `absolute` branch. -/
def isPositioned (b : Box) : Bool :=
  b.style.position == some "absolute" || b.style.position == some "relative" ||
    b.style.position == some "fixed"

/-- The ancestor walk of the `fixed` branch: return the dimensions of the
first `PageBox` ancestor, `assert False, 'Page not found'` otherwise. -/
def findFixed : List Box → Except CBErr (Option Int × Option Int)
  | [] => .error (.containingBlockNotFound "Page not found")
  | a :: rest =>
      if a.kind = BoxKind.pageBox then .ok (a.width, a.height)
      else findFixed rest

/-- The ancestor walk of the `absolute` branch: the first positioned
ancestor wins (the source's `display == 'inline'` special case returns the
same dimensions as the other branch, with a TODO noting the CSS 10.1
deviation); a `PageBox` reached first also wins; an exhausted walk falls
through to `assert False, 'Containing block not found'`. -/
def findAbsolute : List Box → Except CBErr (Option Int × Option Int)
  | [] => .error (.containingBlockNotFound "Containing block not found")
  | a :: rest =>
      if isPositioned a then
        if a.style.display = some "inline" then .ok (a.width, a.height)
        else .ok (a.width, a.height)
      else if a.kind = BoxKind.pageBox then .ok (a.width, a.height)
      else findAbsolute rest

/-- `Box.containing_block_size`.  `ancs` is the ancestor chain produced by
`self.ancestors()`: the parent first, then its parents; `[]` models a box
whose `parent` is `None`. -/
def containing_block_size (self : Box) (ancs : List Box) :
    Except CBErr (Option Int × Option Int) :=
  match ancs with
  | parent :: _ =>
      if parent.kind = BoxKind.pageBox then
        .ok (parent.width, parent.height)
      else if self.style.position = some "relative" ∨
          self.style.position = some "static" then
        .ok (parent.width, parent.height)
      else if self.style.position = some "fixed" then
        findFixed ancs
      else if self.style.position = some "absolute" then
        findAbsolute ancs
      else
        .error (.containingBlockNotFound "Containing block not found")
  | [] =>
      if self.style.position = some "relative" ∨
          self.style.position = some "static" then
        .error .attributeError
      else if self.style.position = some "fixed" then
        .error (.containingBlockNotFound "Page not found")
      else
        .error (.containingBlockNotFound "Containing block not found")

/- A box tree.  `node` is a `ParentBox` instance (it has a `descendants`
method and its `translate` recurses into the children); `leaf` is any
non-`ParentBox` box.  The children keep their insertion order. -/
mutual
inductive BoxTree where
  | leaf : Box → BoxTree
  | node : Box → BoxForest → BoxTree
inductive BoxForest where
  | nil : BoxForest
  | cons : BoxTree → BoxForest → BoxForest
end

/-- The effect of `Box.translate` on the box's own slots:
`self.position_x += x; self.position_y += y`. -/
def Box.offset (b : Box) (x y : Int) : Box :=
  { b with position_x := b.position_x + x, position_y := b.position_y + y }

/- `translate(box, x, y)`: `Box.translate` moves the box itself;
the `ParentBox` override also translates every child. -/
mutual
def BoxTree.translate : BoxTree → Int → Int → BoxTree
  | .leaf b, x, y => .leaf (b.offset x y)
  | .node b f, x, y => .node (b.offset x y) (BoxForest.translate f x y)
def BoxForest.translate : BoxForest → Int → Int → BoxForest
  | .nil, _, _ => .nil
  | .cons t f, x, y => .cons (BoxTree.translate t x y) (BoxForest.translate f x y)
end

/- All box records of a tree, in depth-first pre-order. -/
mutual
def BoxTree.boxes : BoxTree → List Box
  | .leaf b => [b]
  | .node b f => b :: BoxForest.boxes f
def BoxForest.boxes : BoxForest → List Box
  | .nil => []
  | .cons t f => BoxTree.boxes t ++ BoxForest.boxes f
end

/- The sequence contributed by one child in the `descendants` loop:
a child with a `descendants` method is flattened recursively, a leaf child
is yielded directly. -/
mutual
def BoxTree.descOrSelf : BoxTree → List BoxTree
  | .leaf b => [.leaf b]
  | .node b f => .node b f :: BoxForest.descList f
def BoxForest.descList : BoxForest → List BoxTree
  | .nil => []
  | .cons t f => BoxTree.descOrSelf t ++ BoxForest.descList f
end

/-- Failure of a tree operation: `descendants` is a `ParentBox` method, so
looking it up on a non-container box raises `AttributeError`. -/
inductive TreeErr where
  | attributeError
  deriving DecidableEq, Repr

/-- `ParentBox.descendants`: the box itself, then every child flattened
(containers recursively, leaves directly).  Only container boxes have the
method. -/
def BoxTree.descendants : BoxTree → Except TreeErr (List BoxTree)
  | .leaf _ => .error .attributeError
  | .node b f => .ok (BoxTree.node b f :: BoxForest.descList f)

/-- The box record at the root of a subtree. -/
def BoxTree.rootBox : BoxTree → Box
  | .leaf b => b
  | .node b _ => b

/-- A heap of style bags, making style-bag identity explicit: a box refers
to its style by index, `copy` allocates a fresh index. -/
structure StyleStore where
  styles : List Style := []
  deriving DecidableEq, Repr

/-- The style bag a reference points to. -/
def StyleStore.styleAt (st : StyleStore) (r : Nat) : Style :=
  st.styles.getD r {}

/-- Overwrite the style bag behind a reference (an in-place style
mutation such as `reset_spacing` performs). -/
def StyleStore.setStyle (st : StyleStore) (r : Nat) (s : Style) : StyleStore :=
  { styles := st.styles.set r s }

/-- A box as seen by `Box.copy`: the value slots, the concrete class, and
the mutable collaborators held by reference — the style bag, the children
deque and the parent. -/
structure HBox extends BoxFields where
  kind : BoxKind
  styleRef : Nat := 0
  childrenRef : Option Nat := none
  parentRef : Option Nat := none
  deriving DecidableEq, Repr

/-- `Box.copy`: `cls.__new__(cls)` keeps the concrete class, the slot loop
copies every slot (so the children deque and the parent stay shared by
reference), then `new_box.style = self.style.copy()` replaces the style
reference by a freshly allocated value-copy. -/
def copyBox (st : StyleStore) (b : HBox) : StyleStore × HBox :=
  ({ styles := st.styles ++ [st.styleAt b.styleRef] },
    { b with styleRef := st.styles.length })

/-- `AnonymousBox._init_style`: the style is the inheritance-only
derivation `computed_from_cascaded(element, \x7b\x7d, parent_style)` — an
external collaborator, modelled as the given `inherited` bag (the source
element's own style never enters) — and the twelve non-inherited edge
properties are set to their used value, zero. -/
def anonymous_init_style (inherited : Style) (b : Box) : Box :=
  { b with
    style := inherited,
    margin_top := some 0, margin_right := some 0,
    margin_bottom := some 0, margin_left := some 0,
    padding_top := some 0, padding_right := some 0,
    padding_bottom := some 0, padding_left := some 0,
    border_top_width := some 0, border_right_width := some 0,
    border_bottom_width := some 0, border_left_width := some 0 }

/-- `Box.__init__` for an anonymous box class: the slots start unset, the
virtual `_init_style` call resolves to `AnonymousBox._init_style`, then
`width`/`height` are set to `None` and the position to the origin. -/
def box_init_anonymous (k : BoxKind) (inherited : Style) : Box :=
  let b := anonymous_init_style inherited { kind := k }
  { b with width := none, height := none, position_x := 0, position_y := 0 }

/-- All twelve margin / padding / border-width fields of the box are zero. -/
def edges_zero (b : Box) : Bool :=
  b.margin_top == some 0 && b.margin_right == some 0 &&
  b.margin_bottom == some 0 && b.margin_left == some 0 &&
  b.padding_top == some 0 && b.padding_right == some 0 &&
  b.padding_bottom == some 0 && b.padding_left == some 0 &&
  b.border_top_width == some 0 && b.border_right_width == some 0 &&
  b.border_bottom_width == some 0 && b.border_left_width == some 0

/-- A fully resolved block box used to evaluate the geometry queries. -/
def gBox : Box :=
  { kind := .blockBox,
    style := { position := some "static", display := some "block",
               float := some "none" },
    width := some 100, height := some 50,
    position_x := 7, position_y := 9,
    padding_top := some 1, padding_right := some 2,
    padding_bottom := some 3, padding_left := some 4,
    border_top_width := some 5, border_right_width := some 6,
    border_bottom_width := some 7, border_left_width := some 8,
    margin_top := some 9, margin_right := some 10,
    margin_bottom := some 11, margin_left := some 12 }

/-- A block box with an unresolved width. -/
def uBox : Box :=
  { kind := .blockBox,
    style := { position := some "static", display := some "block",
               float := some "none" },
    width := none, height := none }

/-- A `relative` positioned ancestor with content size `(200, 400)`. -/
def aRel : Box :=
  { kind := .blockBox,
    style := { position := some "relative", display := some "block",
               float := some "none" },
    width := some 200, height := some 400 }

/-- An unpositioned intermediate ancestor. -/
def aMid : Box :=
  { kind := .blockBox,
    style := { position := some "static", display := some "block",
               float := some "none" },
    width := some 777, height := some 888 }

/-- An absolutely positioned box. -/
def aSelf : Box :=
  { kind := .blockBox,
    style := { position := some "absolute", display := some "block",
               float := some "none" } }

/-- A page box whose content size `(575, 822)` differs from its outer size
`(595, 842)`. -/
def fxPage : Box :=
  { kind := .pageBox,
    style := {},
    width := some 575, height := some 822,
    outer_width := some 595, outer_height := some 842 }

/-- An unpositioned ancestor between a fixed box and the page. -/
def fxA1 : Box :=
  { kind := .blockBox,
    style := { position := some "static", display := some "block",
               float := some "none" },
    width := some 10, height := some 20 }

/-- Another unpositioned intermediate ancestor. -/
def fxA2 : Box :=
  { kind := .blockBox,
    style := { position := some "static", display := some "block",
               float := some "none" },
    width := some 30, height := some 40 }

/-- A box with `position: fixed`. -/
def fxSelf : Box :=
  { kind := .blockBox,
    style := { position := some "fixed", display := some "block",
               float := some "none" } }

/-- A text box, i.e. a leaf of the box tree. -/
def exLeaf : Box :=
  { kind := .textBox,
    style := { position := some "static", display := some "inline",
               float := some "none" },
    text := some "x" }

/-- A concrete box used to exercise `reset_spacing`. -/
def rBox : Box :=
  { gBox with
    style := { gBox.style with
      margin_top := some 9, margin_right := some 10,
      margin_bottom := some 11, margin_left := some 12,
      padding_top := some 1, padding_right := some 2,
      padding_bottom := some 3, padding_left := some 4,
      border_top_width := some 5, border_right_width := some 6,
      border_bottom_width := some 7, border_left_width := some 8 } }

/-- A concrete style bag for the copy model. -/
def hStyle : Style :=
  { position := some "static", display := some "block", float := some "none",
    margin_top := some 3 }

/-- A concrete heap box whose style reference points into `hStore`. -/
def hBoxEx : HBox :=
  { kind := .inlineBox, styleRef := 0, childrenRef := some 4,
    parentRef := some 5, width := some 33 }

/-- A one-style heap for the copy model. -/
def hStore : StyleStore := { styles := [hStyle] }

/-
Mutual induction principle for `BoxTree` / `BoxForest`, packaged from the
primitive recursors.
-/
theorem boxTree_forest_ind (P : BoxTree → Prop) (Q : BoxForest → Prop)
    (h1 : ∀ b, P (.leaf b)) (h2 : ∀ b f, Q f → P (.node b f))
    (h3 : Q .nil) (h4 : ∀ t f, P t → Q f → Q (.cons t f)) :
    (∀ t, P t) ∧ (∀ f, Q f) :=
  ⟨fun t => BoxTree.rec h1 h2 h3 h4 t, fun f => BoxForest.rec h1 h2 h3 h4 f⟩

/-
Two successive offsets compose additively on a single box record.
-/
theorem Box.offset_offset (b : Box) (x1 y1 x2 y2 : Int) :
    (b.offset x1 y1).offset x2 y2 = b.offset (x1 + x2) (y1 + y2) := by
  simp [Box.offset, add_assoc]

/-
`translate` shifts exactly the positions of every box of the tree,
in pre-order.
-/
theorem translate_boxes_all (x y : Int) :
    (∀ t : BoxTree, (t.translate x y).boxes = t.boxes.map (fun b => b.offset x y)) ∧
    (∀ f : BoxForest,
      (BoxForest.translate f x y).boxes = f.boxes.map (fun b => b.offset x y)) := by
  refine boxTree_forest_ind _ _ ?_ ?_ ?_ ?_
  · intro b
    simp [BoxTree.translate, BoxTree.boxes]
  · intro b f ih
    simp [BoxTree.translate, BoxTree.boxes, ih]
  · simp [BoxForest.translate, BoxForest.boxes]
  · intro t f iht ihf
    simp [BoxForest.translate, BoxForest.boxes, BoxTree.boxes, iht, ihf]

/-
Additivity of `translate` over a whole tree.
-/
theorem translate_add_all (x1 y1 x2 y2 : Int) :
    (∀ t : BoxTree,
      (t.translate x1 y1).translate x2 y2 = t.translate (x1 + x2) (y1 + y2)) ∧
    (∀ f : BoxForest,
      (BoxForest.translate f x1 y1).translate x2 y2 =
        BoxForest.translate f (x1 + x2) (y1 + y2)) := by
  refine boxTree_forest_ind _ _ ?_ ?_ ?_ ?_
  · intro b
    simp [BoxTree.translate, Box.offset_offset]
  · intro b f ih
    simp [BoxTree.translate, Box.offset_offset, ih]
  · simp [BoxForest.translate]
  · intro t f iht ihf
    simp [BoxForest.translate, iht, ihf]

/-
The `descendants` sequence of a subtree visits exactly the boxes of that
subtree, in the same pre-order as `boxes`.
-/
theorem desc_boxes_all :
    (∀ t : BoxTree, t.descOrSelf.map BoxTree.rootBox = t.boxes) ∧
    (∀ f : BoxForest, (BoxForest.descList f).map BoxTree.rootBox = f.boxes) := by
  refine boxTree_forest_ind _ _ ?_ ?_ ?_ ?_
  · intro b
    simp [BoxTree.descOrSelf, BoxTree.boxes, BoxTree.rootBox]
  · intro b f ih
    simp [BoxTree.descOrSelf, BoxTree.boxes, BoxTree.rootBox, ih]
  · simp [BoxForest.descList, BoxForest.boxes]
  · intro t f iht ihf
    simp [BoxForest.descList, BoxForest.boxes, iht, ihf]

/-- C4: `translate(box, dx, dy)` adds exactly `(dx, dy)` to
`position_x` / `position_y` of the box and of every transitive descendant
and changes no other field, and translation is additive: translating by
`(dx1, dy1)` and then by `(dx2, dy2)` equals one translation by
`(dx1 + dx2, dy1 + dy2)`. -/
theorem translate_spec (t : BoxTree) (x y x1 y1 x2 y2 : Int) :
    (t.translate x y).boxes = t.boxes.map
      (fun b => { b with
        position_x := b.position_x + x, position_y := b.position_y + y }) ∧
    (t.translate x1 y1).translate x2 y2 = t.translate (x1 + x2) (y1 + y2) :=
  ⟨(translate_boxes_all x y).1 t, (translate_add_all x1 y1 x2 y2).1 t⟩

/-- C5 counterexample: `descendants` is a `ParentBox` method, so on a leaf
(non-container) box such as a text box the attribute lookup fails; the
call does not yield the box itself. -/
theorem descendants_leaf_counterexample :
    BoxTree.descendants (.leaf exLeaf) = .error .attributeError ∧
    BoxTree.descendants (.leaf exLeaf) ≠ .ok [.leaf exLeaf] := by
  refine ⟨rfl, ?_⟩
  intro h
  simp [BoxTree.descendants] at h

/-- C5 (amended): on a leaf box `descendants` fails with `AttributeError`;
on a container box it yields the box itself followed by all of its
descendants in depth-first pre-order (recursing into container children,
yielding leaf children directly), visiting exactly the boxes of the
subtree; on a container with children `[c1, c2]` where `c1` is itself a
container with single child `g1`, it yields `[box, c1, g1, c2]` in that
exact order. -/
theorem descendants_spec (b c1 g1 c2 : Box) (f : BoxForest) (t : BoxTree) :
    BoxTree.descendants (.leaf b) = .error .attributeError ∧
    BoxTree.descendants (.node b f) = .ok (BoxTree.descOrSelf (.node b f)) ∧
    t.descOrSelf.map BoxTree.rootBox = t.boxes ∧
    BoxTree.descendants
        (.node b (.cons (.node c1 (.cons (.leaf g1) .nil)) (.cons (.leaf c2) .nil))) =
      .ok [.node b (.cons (.node c1 (.cons (.leaf g1) .nil)) (.cons (.leaf c2) .nil)),
           .node c1 (.cons (.leaf g1) .nil), .leaf g1, .leaf c2] := by
  refine ⟨rfl, rfl, desc_boxes_all.1 t, ?_⟩
  simp [BoxTree.descendants, BoxForest.descList, BoxTree.descOrSelf]

/-- C1: on a box whose width, height and all twelve edge fields are
resolved, the derived measurements satisfy the chain
`margin_width = border_width + ml + mr = padding_width + bl + br + ml + mr
= width + (sum of the six horizontal edges)`, with
`horizontal_surroundings = margin_width - width`, and the analogous
identities hold vertically. -/
theorem geometry_identities (b : Box) (w h pt pr pb pl bt br bb bl mt mr mb ml : Int)
    (hw : b.width = some w) (hh : b.height = some h)
    (hpt : b.padding_top = some pt) (hpr : b.padding_right = some pr)
    (hpb : b.padding_bottom = some pb) (hpl : b.padding_left = some pl)
    (hbt : b.border_top_width = some bt) (hbr : b.border_right_width = some br)
    (hbb : b.border_bottom_width = some bb) (hbl : b.border_left_width = some bl)
    (hmt : b.margin_top = some mt) (hmr : b.margin_right = some mr)
    (hmb : b.margin_bottom = some mb) (hml : b.margin_left = some ml) :
    (∃ pw bw mw hs, b.padding_width = .ok pw ∧ b.border_width = .ok bw ∧
      b.margin_width = .ok mw ∧ b.horizontal_surroundings = .ok hs ∧
      mw = bw + ml + mr ∧ mw = pw + bl + br + ml + mr ∧
      mw = w + hs ∧ hs = mw - w) ∧
    (∃ ph bh mh vs, b.padding_height = .ok ph ∧ b.border_height = .ok bh ∧
      b.margin_height = .ok mh ∧ b.vertical_surroundings = .ok vs ∧
      mh = bh + mt + mb ∧ mh = ph + bt + bb + mt + mb ∧
      mh = h + vs ∧ vs = mh - h) := by
  refine ⟨⟨w + pl + pr, w + pl + pr + bl + br, w + pl + pr + bl + br + ml + mr,
      ml + mr + pl + pr + bl + br, ?_, ?_, ?_, ?_,
      by ring, by ring, by ring, by ring⟩,
    ⟨h + pt + pb, h + pt + pb + bt + bb, h + pt + pb + bt + bb + mt + mb,
      mt + mb + pt + pb + bt + bb, ?_, ?_, ?_, ?_,
      by ring, by ring, by ring, by ring⟩⟩
  · simp [Box.padding_width, hw, hpl, hpr]
  · simp [Box.border_width, Box.padding_width, hw, hpl, hpr, hbl, hbr]
  · simp [Box.margin_width, Box.border_width, Box.padding_width,
      hw, hpl, hpr, hbl, hbr, hml, hmr]
  · simp [Box.horizontal_surroundings, hml, hmr, hpl, hpr, hbl, hbr]
  · simp [Box.padding_height, hh, hpt, hpb]
  · simp [Box.border_height, Box.padding_height, hh, hpt, hpb, hbt, hbb]
  · simp [Box.margin_height, Box.border_height, Box.padding_height,
      hh, hpt, hpb, hbt, hbb, hmt, hmb]
  · simp [Box.vertical_surroundings, hmt, hmb, hpt, hpb, hbt, hbb]

/-- C1 witness: the identities evaluated on the fully resolved box `gBox`. -/
theorem geometry_identities_witness :
    (∃ pw bw mw hs, gBox.padding_width = .ok pw ∧ gBox.border_width = .ok bw ∧
      gBox.margin_width = .ok mw ∧ gBox.horizontal_surroundings = .ok hs ∧
      mw = bw + 12 + 10 ∧ mw = pw + 8 + 6 + 12 + 10 ∧
      mw = 100 + hs ∧ hs = mw - 100) ∧
    (∃ ph bh mh vs, gBox.padding_height = .ok ph ∧ gBox.border_height = .ok bh ∧
      gBox.margin_height = .ok mh ∧ gBox.vertical_surroundings = .ok vs ∧
      mh = bh + 9 + 11 ∧ mh = ph + 5 + 7 + 9 + 11 ∧
      mh = 50 + vs ∧ vs = mh - 50) :=
  geometry_identities gBox 100 50 1 2 3 4 5 6 7 8 9 10 11 12
    rfl rfl rfl rfl rfl rfl rfl rfl rfl rfl rfl rfl rfl rfl

/-- C7: every geometry query fails with `IncompleteGeometry` exactly when
one of the fields it requires is still unresolved, and in particular never
silently defaults an unresolved value to zero. -/
theorem incomplete_geometry_spec (b : Box) :
    (b.padding_width = .error .incompleteGeometry ↔
      b.width = none ∨ b.padding_left = none ∨ b.padding_right = none) ∧
    (b.padding_height = .error .incompleteGeometry ↔
      b.height = none ∨ b.padding_top = none ∨ b.padding_bottom = none) ∧
    (b.border_width = .error .incompleteGeometry ↔
      b.width = none ∨ b.padding_left = none ∨ b.padding_right = none ∨
      b.border_left_width = none ∨ b.border_right_width = none) ∧
    (b.border_height = .error .incompleteGeometry ↔
      b.height = none ∨ b.padding_top = none ∨ b.padding_bottom = none ∨
      b.border_top_width = none ∨ b.border_bottom_width = none) ∧
    (b.margin_width = .error .incompleteGeometry ↔
      b.width = none ∨ b.padding_left = none ∨ b.padding_right = none ∨
      b.border_left_width = none ∨ b.border_right_width = none ∨
      b.margin_left = none ∨ b.margin_right = none) ∧
    (b.margin_height = .error .incompleteGeometry ↔
      b.height = none ∨ b.padding_top = none ∨ b.padding_bottom = none ∨
      b.border_top_width = none ∨ b.border_bottom_width = none ∨
      b.margin_top = none ∨ b.margin_bottom = none) ∧
    (b.horizontal_surroundings = .error .incompleteGeometry ↔
      b.margin_left = none ∨ b.margin_right = none ∨
      b.padding_left = none ∨ b.padding_right = none ∨
      b.border_left_width = none ∨ b.border_right_width = none) ∧
    (b.vertical_surroundings = .error .incompleteGeometry ↔
      b.margin_top = none ∨ b.margin_bottom = none ∨
      b.padding_top = none ∨ b.padding_bottom = none ∨
      b.border_top_width = none ∨ b.border_bottom_width = none) ∧
    (b.content_box_x = .error .incompleteGeometry ↔
      b.margin_left = none ∨ b.padding_left = none ∨
      b.border_left_width = none) ∧
    (b.content_box_y = .error .incompleteGeometry ↔
      b.margin_top = none ∨ b.padding_top = none ∨
      b.border_top_width = none) ∧
    (b.padding_box_x = .error .incompleteGeometry ↔
      b.margin_left = none ∨ b.border_left_width = none) ∧
    (b.padding_box_y = .error .incompleteGeometry ↔
      b.margin_top = none ∨ b.border_top_width = none) ∧
    (b.border_box_x = .error .incompleteGeometry ↔ b.margin_left = none) ∧
    (b.border_box_y = .error .incompleteGeometry ↔ b.margin_top = none) := by
  refine ⟨?_, ?_, ?_, ?_, ?_, ?_, ?_, ?_, ?_, ?_, ?_, ?_, ?_, ?_⟩
  · cases hw : b.width <;> cases h1 : b.padding_left <;>
      cases h2 : b.padding_right <;> simp [Box.padding_width, hw, h1, h2]
  · cases hh : b.height <;> cases h1 : b.padding_top <;>
      cases h2 : b.padding_bottom <;> simp [Box.padding_height, hh, h1, h2]
  · cases hw : b.width <;> cases h1 : b.padding_left <;>
      cases h2 : b.padding_right <;> cases h3 : b.border_left_width <;>
      cases h4 : b.border_right_width <;>
      simp [Box.border_width, Box.padding_width, hw, h1, h2, h3, h4]
  · cases hh : b.height <;> cases h1 : b.padding_top <;>
      cases h2 : b.padding_bottom <;> cases h3 : b.border_top_width <;>
      cases h4 : b.border_bottom_width <;>
      simp [Box.border_height, Box.padding_height, hh, h1, h2, h3, h4]
  · cases hw : b.width <;> cases h1 : b.padding_left <;>
      cases h2 : b.padding_right <;> cases h3 : b.border_left_width <;>
      cases h4 : b.border_right_width <;> cases h5 : b.margin_left <;>
      cases h6 : b.margin_right <;>
      simp [Box.margin_width, Box.border_width, Box.padding_width,
        hw, h1, h2, h3, h4, h5, h6]
  · cases hh : b.height <;> cases h1 : b.padding_top <;>
      cases h2 : b.padding_bottom <;> cases h3 : b.border_top_width <;>
      cases h4 : b.border_bottom_width <;> cases h5 : b.margin_top <;>
      cases h6 : b.margin_bottom <;>
      simp [Box.margin_height, Box.border_height, Box.padding_height,
        hh, h1, h2, h3, h4, h5, h6]
  · cases h1 : b.margin_left <;> cases h2 : b.margin_right <;>
      cases h3 : b.padding_left <;> cases h4 : b.padding_right <;>
      cases h5 : b.border_left_width <;> cases h6 : b.border_right_width <;>
      simp [Box.horizontal_surroundings, h1, h2, h3, h4, h5, h6]
  · cases h1 : b.margin_top <;> cases h2 : b.margin_bottom <;>
      cases h3 : b.padding_top <;> cases h4 : b.padding_bottom <;>
      cases h5 : b.border_top_width <;> cases h6 : b.border_bottom_width <;>
      simp [Box.vertical_surroundings, h1, h2, h3, h4, h5, h6]
  · cases h1 : b.margin_left <;> cases h2 : b.padding_left <;>
      cases h3 : b.border_left_width <;> simp [Box.content_box_x, h1, h2, h3]
  · cases h1 : b.margin_top <;> cases h2 : b.padding_top <;>
      cases h3 : b.border_top_width <;> simp [Box.content_box_y, h1, h2, h3]
  · cases h1 : b.margin_left <;> cases h2 : b.border_left_width <;>
      simp [Box.padding_box_x, h1, h2]
  · cases h1 : b.margin_top <;> cases h2 : b.border_top_width <;>
      simp [Box.padding_box_y, h1, h2]
  · cases h1 : b.margin_left <;> simp [Box.border_box_x, h1]
  · cases h1 : b.margin_top <;> simp [Box.border_box_y, h1]

/-
The `fixed` walk returns the first page box, skipping non-page ancestors.
-/
theorem findFixed_skip (pre post : List Box) (page : Box)
    (hpre : ∀ b ∈ pre, b.kind ≠ BoxKind.pageBox)
    (hpage : page.kind = BoxKind.pageBox) :
    findFixed (pre ++ page :: post) = .ok (page.width, page.height) := by
  induction pre with
  | nil => simp [findFixed, hpage]
  | cons a rest ih =>
      have ha : a.kind ≠ BoxKind.pageBox := hpre a (List.mem_cons_self a rest)
      simp only [List.cons_append, findFixed, if_neg ha]
      exact ih fun b hb => hpre b (List.mem_cons_of_mem a hb)

/-
The `fixed` walk over a chain without any page box hits the
`assert False, 'Page not found'`.
-/
theorem findFixed_none (ancs : List Box)
    (h : ∀ b ∈ ancs, b.kind ≠ BoxKind.pageBox) :
    findFixed ancs = .error (.containingBlockNotFound "Page not found") := by
  induction ancs with
  | nil => rfl
  | cons a rest ih =>
      have ha := h a (List.mem_cons_self a rest)
      simp only [findFixed, if_neg ha]
      exact ih fun b hb => h b (List.mem_cons_of_mem a hb)

/-
The `absolute` walk returns the first ancestor that is positioned or a
page box, skipping ancestors that are neither.
-/
theorem findAbsolute_skip (pre post : List Box) (a : Box)
    (hpre : ∀ b ∈ pre, isPositioned b = false ∧ b.kind ≠ BoxKind.pageBox)
    (ha : isPositioned a = true ∨ a.kind = BoxKind.pageBox) :
    findAbsolute (pre ++ a :: post) = .ok (a.width, a.height) := by
  induction pre with
  | nil =>
      rcases ha with h | h
      · simp [findAbsolute, h]
      · by_cases hp : isPositioned a <;> simp [findAbsolute, hp, h]
  | cons p rest ih =>
      have hp := hpre p (List.mem_cons_self p rest)
      simp only [List.cons_append, findAbsolute, hp.1, Bool.false_eq_true,
        if_false, if_neg hp.2]
      exact ih fun b hb => hpre b (List.mem_cons_of_mem p hb)

/-
Dispatch of `containing_block_size` to the `absolute` walk.
-/
theorem cbs_absolute (self parent : Box) (rest : List Box)
    (hk : parent.kind ≠ BoxKind.pageBox)
    (habs : self.style.position = some "absolute") :
    containing_block_size self (parent :: rest) =
      findAbsolute (parent :: rest) := by
  simp [containing_block_size, hk, habs]

/-
Dispatch of `containing_block_size` to the `fixed` walk.
-/
theorem cbs_fixed (self parent : Box) (rest : List Box)
    (hk : parent.kind ≠ BoxKind.pageBox)
    (hfix : self.style.position = some "fixed") :
    containing_block_size self (parent :: rest) =
      findFixed (parent :: rest) := by
  simp [containing_block_size, hk, hfix]

/-- C2: a box whose parent is a page box resolves to the page's content
dimensions regardless of its position scheme; a `static` or `relative` box
resolves to its parent's content dimensions; an `absolute` box resolves to
the content dimensions of the first ancestor that is positioned
(`absolute`, `relative` or `fixed` — an inline-display positioned ancestor
included, on the same footing as a block one) or, failing that, of the
first page box. -/
theorem containing_block_spec :
    (∀ (self parent : Box) (rest : List Box), parent.kind = BoxKind.pageBox →
      containing_block_size self (parent :: rest) =
        .ok (parent.width, parent.height)) ∧
    (∀ (self parent : Box) (rest : List Box),
      self.style.position = some "static" ∨
        self.style.position = some "relative" →
      containing_block_size self (parent :: rest) =
        .ok (parent.width, parent.height)) ∧
    (∀ (self a : Box) (pre post : List Box),
      self.style.position = some "absolute" →
      (∀ b ∈ pre, isPositioned b = false ∧ b.kind ≠ BoxKind.pageBox) →
      isPositioned a = true ∨ a.kind = BoxKind.pageBox →
      containing_block_size self (pre ++ a :: post) =
        .ok (a.width, a.height)) := by
  refine ⟨?_, ?_, ?_⟩
  · intro self parent rest h
    simp [containing_block_size, h]
  · intro self parent rest h
    by_cases hk : parent.kind = BoxKind.pageBox
    · simp [containing_block_size, hk]
    · rcases h with h | h <;> simp [containing_block_size, hk, h]
  · intro self a pre post habs hpre ha
    cases pre with
    | nil =>
        by_cases hk : a.kind = BoxKind.pageBox
        · simp [containing_block_size, hk]
        · have hpa : isPositioned a = true := by
            rcases ha with h | h
            · exact h
            · exact absurd h hk
          rw [List.nil_append, cbs_absolute self a post hk habs]
          exact findAbsolute_skip [] post a (by simp) (Or.inl hpa)
    | cons p pre2 =>
        have hp := hpre p (List.mem_cons_self p pre2)
        rw [List.cons_append, cbs_absolute self p (pre2 ++ a :: post) hp.2 habs,
          show p :: (pre2 ++ a :: post) = (p :: pre2) ++ a :: post from rfl]
        exact findAbsolute_skip (p :: pre2) post a hpre ha

/-- C2 witness: an `absolute` box under an unpositioned parent whose
grandparent is `relative` with content size `(200, 400)` resolves to
`(200, 400)`. -/
theorem containing_block_spec_witness :
    containing_block_size aSelf [aMid, aRel] = .ok (some 200, some 400) :=
  containing_block_spec.2.2 aSelf aRel [aMid] [] rfl
    (by intro b hb; simp at hb; subst hb; refine ⟨by decide, by decide⟩)
    (Or.inl (by decide))

/-- C3 counterexample: a `fixed` box nested three levels deep under the
page box `fxPage`, whose outer size is `(595, 842)` but whose content size
is `(575, 822)`, resolves to the content size `(575, 822)` — not to the
outer dimensions as the claim states. -/
theorem fixed_not_outer_counterexample :
    containing_block_size fxSelf [fxA1, fxA2, fxPage] =
      .ok (some 575, some 822) ∧
    fxPage.outer_width = some 595 ∧ fxPage.outer_height = some 842 ∧
    containing_block_size fxSelf [fxA1, fxA2, fxPage] ≠
      .ok (fxPage.outer_width, fxPage.outer_height) := by
  refine ⟨rfl, rfl, rfl, ?_⟩
  intro h
  rw [show containing_block_size fxSelf [fxA1, fxA2, fxPage] =
    .ok (some 575, some 822) from rfl] at h
  simp [fxPage] at h

/-- C3 (amended): for every box with position `fixed`, containing-block
resolution walks the ancestor chain until a page box is found and returns
that page box's content dimensions (`width`, `height`) regardless of
intermediate ancestors' sizes, and fails fatally (the
`AssertionError 'Page not found'`, the spec's `ContainingBlockNotFound`)
if no page ancestor exists. -/
theorem fixed_containing_block_spec :
    (∀ (self page : Box) (pre post : List Box),
      self.style.position = some "fixed" →
      (∀ b ∈ pre, b.kind ≠ BoxKind.pageBox) →
      page.kind = BoxKind.pageBox →
      containing_block_size self (pre ++ page :: post) =
        .ok (page.width, page.height)) ∧
    (∀ (self : Box) (ancs : List Box),
      self.style.position = some "fixed" →
      (∀ b ∈ ancs, b.kind ≠ BoxKind.pageBox) →
      containing_block_size self ancs =
        .error (.containingBlockNotFound "Page not found")) := by
  constructor
  · intro self page pre post hfix hpre hpage
    cases pre with
    | nil => simp [containing_block_size, hpage]
    | cons p pre2 =>
        have hp := hpre p (List.mem_cons_self p pre2)
        rw [List.cons_append, cbs_fixed self p (pre2 ++ page :: post) hp hfix,
          show p :: (pre2 ++ page :: post) = (p :: pre2) ++ page :: post from rfl]
        exact findFixed_skip (p :: pre2) post page hpre hpage
  · intro self ancs hfix h
    cases ancs with
    | nil => simp [containing_block_size, hfix]
    | cons p rest =>
        have hp := h p (List.mem_cons_self p rest)
        rw [cbs_fixed self p rest hp hfix]
        exact findFixed_none (p :: rest) h

/-- C3 witness: the amended resolution evaluated on the concrete chain;
the fixed box three levels under `fxPage` resolves to the page's content
size `(575, 822)`. -/
theorem fixed_containing_block_witness :
    containing_block_size fxSelf [fxA1, fxA2, fxPage] =
      .ok (some 575, some 822) :=
  fixed_containing_block_spec.1 fxSelf fxPage [fxA1, fxA2] [] rfl
    (by intro b hb; fin_cases hb <;> decide) rfl

/-- C6: `copy(box)` returns a new box of the identical concrete kind whose
every value slot equals the original's and whose children deque and parent
stay shared by reference, while the style bag is a freshly allocated,
value-equal instance: overwriting the copy's style bag with any style `s`
leaves the original's style bag unchanged. -/
theorem copy_spec (st : StyleStore) (b : HBox) (s : Style)
    (hb : b.styleRef < st.styles.length) :
    (copyBox st b).2.kind = b.kind ∧
    (copyBox st b).2.toBoxFields = b.toBoxFields ∧
    (copyBox st b).2.childrenRef = b.childrenRef ∧
    (copyBox st b).2.parentRef = b.parentRef ∧
    (copyBox st b).2.styleRef ≠ b.styleRef ∧
    (copyBox st b).1.styleAt (copyBox st b).2.styleRef = st.styleAt b.styleRef ∧
    ((copyBox st b).1.setStyle (copyBox st b).2.styleRef s).styleAt b.styleRef =
      st.styleAt b.styleRef := by
  have hne : st.styles.length ≠ b.styleRef := (Nat.ne_of_lt hb).symm
  refine ⟨rfl, rfl, rfl, rfl, hne, ?_, ?_⟩
  · simp [copyBox, StyleStore.styleAt, List.getElem?_concat_length]
  · simp [copyBox, StyleStore.setStyle, StyleStore.styleAt,
      List.getElem?_set_ne hne, List.getElem?_append_left hb]

/-- C6 witness: copying the concrete heap box `hBoxEx` in the one-style
heap `hStore`, then overwriting the copy's style bag, leaves the
original's untouched. -/
theorem copy_spec_witness :
    (copyBox hStore hBoxEx).2.kind = hBoxEx.kind ∧
    (copyBox hStore hBoxEx).2.toBoxFields = hBoxEx.toBoxFields ∧
    (copyBox hStore hBoxEx).2.childrenRef = hBoxEx.childrenRef ∧
    (copyBox hStore hBoxEx).2.parentRef = hBoxEx.parentRef ∧
    (copyBox hStore hBoxEx).2.styleRef ≠ hBoxEx.styleRef ∧
    (copyBox hStore hBoxEx).1.styleAt (copyBox hStore hBoxEx).2.styleRef =
      hStore.styleAt hBoxEx.styleRef ∧
    ((copyBox hStore hBoxEx).1.setStyle (copyBox hStore hBoxEx).2.styleRef
        { position := some "absolute" }).styleAt hBoxEx.styleRef =
      hStore.styleAt hBoxEx.styleRef :=
  copy_spec hStore hBoxEx { position := some "absolute" } (by decide)

/-- C8: immediately after construction of an anonymous box
(`AnonymousBlockBox`, `LineBox`, `TextBox`, `ImageMarkerBox`), all four
margin fields, all four padding fields and all four border-width fields
are zero, whatever style bag the inheritance-only derivation produced —
the source element's own computed style never enters the construction. -/
theorem anonymous_edges_zero (s : Style) :
    edges_zero (box_init_anonymous .anonymousBlockBox s) = true ∧
    edges_zero (box_init_anonymous .lineBox s) = true ∧
    edges_zero (box_init_anonymous .textBox s) = true ∧
    edges_zero (box_init_anonymous .imageMarkerBox s) = true :=
  ⟨rfl, rfl, rfl, rfl⟩

/-- C9: `reset_spacing(side)` sets the side's margin, padding and
border-width fields to zero and nulls the three corresponding style
entries, while every other side's fields and style entries and all other
box fields are unchanged. -/
theorem reset_spacing_spec (b : Box) (s t : Side) (hst : t ≠ s) :
    (b.reset_spacing s).marginAt s = some 0 ∧
    (b.reset_spacing s).paddingAt s = some 0 ∧
    (b.reset_spacing s).borderWidthAt s = some 0 ∧
    (b.reset_spacing s).style.marginAt s = none ∧
    (b.reset_spacing s).style.paddingAt s = none ∧
    (b.reset_spacing s).style.borderWidthAt s = none ∧
    (b.reset_spacing s).marginAt t = b.marginAt t ∧
    (b.reset_spacing s).paddingAt t = b.paddingAt t ∧
    (b.reset_spacing s).borderWidthAt t = b.borderWidthAt t ∧
    (b.reset_spacing s).style.marginAt t = b.style.marginAt t ∧
    (b.reset_spacing s).style.paddingAt t = b.style.paddingAt t ∧
    (b.reset_spacing s).style.borderWidthAt t = b.style.borderWidthAt t ∧
    (b.reset_spacing s).width = b.width ∧
    (b.reset_spacing s).height = b.height ∧
    (b.reset_spacing s).position_x = b.position_x ∧
    (b.reset_spacing s).position_y = b.position_y ∧
    (b.reset_spacing s).kind = b.kind ∧
    (b.reset_spacing s).document = b.document ∧
    (b.reset_spacing s).element = b.element ∧
    (b.reset_spacing s).text = b.text ∧
    (b.reset_spacing s).text_indent = b.text_indent ∧
    (b.reset_spacing s).min_width = b.min_width ∧
    (b.reset_spacing s).max_width = b.max_width ∧
    (b.reset_spacing s).min_height = b.min_height ∧
    (b.reset_spacing s).max_height = b.max_height ∧
    (b.reset_spacing s).background_drawn = b.background_drawn ∧
    (b.reset_spacing s).baseline = b.baseline ∧
    (b.reset_spacing s).outer_width = b.outer_width ∧
    (b.reset_spacing s).outer_height = b.outer_height ∧
    (b.reset_spacing s).style.position = b.style.position ∧
    (b.reset_spacing s).style.display = b.style.display ∧
    (b.reset_spacing s).style.float = b.style.float := by
  cases s <;> cases t <;>
    simp_all [Box.reset_spacing, Box.marginAt, Box.paddingAt,
      Box.borderWidthAt, Style.marginAt, Style.paddingAt, Style.borderWidthAt]

/-- C9 witness: resetting the left side of the concrete box `rBox` zeroes
exactly the left fields and leaves the top side and the other fields
untouched. -/
theorem reset_spacing_witness :
    (rBox.reset_spacing .left).marginAt .left = some 0 ∧
    (rBox.reset_spacing .left).paddingAt .left = some 0 ∧
    (rBox.reset_spacing .left).borderWidthAt .left = some 0 ∧
    (rBox.reset_spacing .left).style.marginAt .left = none ∧
    (rBox.reset_spacing .left).style.paddingAt .left = none ∧
    (rBox.reset_spacing .left).style.borderWidthAt .left = none ∧
    (rBox.reset_spacing .left).marginAt .top = rBox.marginAt .top ∧
    (rBox.reset_spacing .left).paddingAt .top = rBox.paddingAt .top ∧
    (rBox.reset_spacing .left).borderWidthAt .top = rBox.borderWidthAt .top ∧
    (rBox.reset_spacing .left).style.marginAt .top = rBox.style.marginAt .top ∧
    (rBox.reset_spacing .left).style.paddingAt .top = rBox.style.paddingAt .top ∧
    (rBox.reset_spacing .left).style.borderWidthAt .top =
      rBox.style.borderWidthAt .top ∧
    (rBox.reset_spacing .left).width = rBox.width ∧
    (rBox.reset_spacing .left).height = rBox.height ∧
    (rBox.reset_spacing .left).position_x = rBox.position_x ∧
    (rBox.reset_spacing .left).position_y = rBox.position_y ∧
    (rBox.reset_spacing .left).kind = rBox.kind ∧
    (rBox.reset_spacing .left).document = rBox.document ∧
    (rBox.reset_spacing .left).element = rBox.element ∧
    (rBox.reset_spacing .left).text = rBox.text ∧
    (rBox.reset_spacing .left).text_indent = rBox.text_indent ∧
    (rBox.reset_spacing .left).min_width = rBox.min_width ∧
    (rBox.reset_spacing .left).max_width = rBox.max_width ∧
    (rBox.reset_spacing .left).min_height = rBox.min_height ∧
    (rBox.reset_spacing .left).max_height = rBox.max_height ∧
    (rBox.reset_spacing .left).background_drawn = rBox.background_drawn ∧
    (rBox.reset_spacing .left).baseline = rBox.baseline ∧
    (rBox.reset_spacing .left).outer_width = rBox.outer_width ∧
    (rBox.reset_spacing .left).outer_height = rBox.outer_height ∧
    (rBox.reset_spacing .left).style.position = rBox.style.position ∧
    (rBox.reset_spacing .left).style.display = rBox.style.display ∧
    (rBox.reset_spacing .left).style.float = rBox.style.float :=
  reset_spacing_spec rBox .left .top (by decide)

/-- C10: the positioning-scheme predicates are related as the source
defines them: `is_absolutely_positioned` holds exactly for position
keyword `absolute` or `fixed`, `is_floated` exactly when the float
keyword differs from `none`, and `is_in_normal_flow` exactly when the box
is neither floated nor absolutely positioned. -/
theorem positioning_scheme_spec (b : Box) :
    (b.is_absolutely_positioned = true ↔
      b.style.position = some "absolute" ∨ b.style.position = some "fixed") ∧
    (b.is_floated = true ↔ b.style.float ≠ some "none") ∧
    (b.is_in_normal_flow = true ↔
      b.is_floated = false ∧ b.is_absolutely_positioned = false) := by
  refine ⟨?_, ?_, ?_⟩ <;>
    simp [Box.is_absolutely_positioned, Box.is_floated, Box.is_in_normal_flow]

end Weasy
